import Mathlib

/-!
# girls4change: Messenger bot relay (`node/app.js`)

A shallow embedding of the conversational core of `node/app.js`:

* the per-user slot store `database.users` with `updateParams`;
* the recommendation path `sendGroupsList`;
* the reply router `sendApiAiMessages` / `processCustom`;
* the turn drivers `sendToApiAi` and `receivedMessage`.

Calls to the Send API (`callSendAPI`) and to the API.AI client (`textRequest`) are
recorded, in program order, as a list of `Effect`s.  Replies of the two remote
services are inputs of the model.  Timer callbacks (`setTimeout`) of a turn are run
after the synchronous part of that turn, in the order in which they fire.
-/

namespace Girls4Change

/-! ## JavaScript values -/

/-- JSON-like JavaScript values held in slots and payloads.  Numbers are the integers;
array values are not part of the model. -/
inductive JsVal where
  | undefined
  | null
  | bool (b : Bool)
  | num (n : Int)
  | str (s : String)
  | obj (fields : List (String × JsVal))

/-- A plain object: its own properties, in insertion order.  Properties inherited
through the prototype chain (and the special key `__proto__`) are not part of the
model. -/
abbrev Obj := List (String × JsVal)

/-- Uncaught JavaScript exceptions that the modelled code can raise. -/
inductive JsError where
  | typeError (detail : String)
  deriving DecidableEq, Repr

/-- ToBoolean: the test performed by `if (v)` and `!v`. -/
def JsVal.truthy : JsVal → Bool
  | .undefined => false
  | .null => false
  | .bool b => b
  | .num n => n != 0
  | .str s => s != ""
  | .obj _ => true

/-- Write `m[k] = v` on a keyed collection: overwrite the entry if it is there, add it
otherwise. -/
def assocSet {κ β : Type} [BEq κ] : List (κ × β) → κ → β → List (κ × β)
  | [], k, v => [(k, v)]
  | (a, b) :: rest, k, v =>
    if a == k then (k, v) :: rest else (a, b) :: assocSet rest k v

/-- Property read `o[key]` on a plain object: `undefined` when the key is not there. -/
def Obj.get (o : Obj) (key : String) : JsVal :=
  (o.lookup key).getD JsVal.undefined

/-- Whether `key` is an own property of the object. -/
def Obj.has (o : Obj) (key : String) : Bool :=
  o.any (fun p => p.1 == key)

/-- Assignment `o[key] = value`. -/
def Obj.set (o : Obj) (key : String) (value : JsVal) : Obj :=
  assocSet o key value

/-- Property read `v[key]` for a key that is not a built-in property of the primitive
wrappers (the source reads `amount` and `intent`): a `TypeError` on `undefined` and
`null`, `undefined` on the other primitives. -/
def JsVal.getProp (v : JsVal) (key : String) : Except JsError JsVal :=
  match v with
  | .undefined => .error (.typeError ("Cannot read property " ++ key ++ " of undefined"))
  | .null => .error (.typeError ("Cannot read property " ++ key ++ " of null"))
  | .obj fields => .ok (Obj.get fields key)
  | _ => .ok .undefined

/-- The characters skipped by `parseInt` at the start of its input (WhiteSpace and
LineTerminator of ECMAScript). -/
def isStrWhiteSpaceChar (c : Char) : Bool :=
  let n := c.toNat
  n == 0x09 || n == 0x0A || n == 0x0B || n == 0x0C || n == 0x0D || n == 0x20 ||
  n == 0xA0 || n == 0x1680 || (0x2000 ≤ n && n ≤ 0x200A) || n == 0x2028 ||
  n == 0x2029 || n == 0x202F || n == 0x205F || n == 0x3000 || n == 0xFEFF

/-- Value of `c` as a digit in the given radix, if it is one. -/
def radixDigit (radix : Nat) (c : Char) : Option Nat :=
  let n := c.toNat
  let v : Option Nat :=
    if 48 ≤ n && n ≤ 57 then some (n - 48)
    else if 97 ≤ n && n ≤ 122 then some (n - 97 + 10)
    else if 65 ≤ n && n ≤ 90 then some (n - 65 + 10)
    else none
  v.filter (fun d => d < radix)

/-- Value of the longest prefix of radix digits; `acc` is `none` until a digit is read. -/
def digitsValue (radix : Nat) : List Char → Option Nat → Option Nat
  | [], acc => acc
  | c :: cs, acc =>
    match radixDigit radix c with
    | some d => digitsValue radix cs (some (acc.getD 0 * radix + d))
    | none => acc

/-- The call `parseInt(s)` on a string, without a radix argument; `none` is `NaN`. -/
def parseIntString (s : String) : Option Int :=
  let trimmed := s.data.dropWhile isStrWhiteSpaceChar
  let signed : Int × List Char :=
    match trimmed with
    | '-' :: r => (-1, r)
    | '+' :: r => (1, r)
    | r => (1, r)
  let based : Nat × List Char :=
    match signed.2 with
    | '0' :: 'x' :: r => (16, r)
    | '0' :: 'X' :: r => (16, r)
    | r => (10, r)
  (digitsValue based.1 based.2 none).map (fun z => signed.1 * (z : Int))

/-- The call `parseInt(v)`: the argument is converted to a string first.  The strings of
`undefined`, `null`, booleans and plain objects (with the default `toString`) start
with no digit. -/
def parseInt : JsVal → Option Int
  | .str s => parseIntString s
  | .num n => some n
  | _ => none

/-- The call `xs.indexOf(v)` on an array of strings: strict equality, `-1` when not found. -/
def indexOf (xs : List String) (searchElement : JsVal) : Int :=
  match searchElement with
  | .str s =>
    match xs.indexOf? s with
    | some i => (i : Int)
    | none => -1
  | _ => -1

/-- The relational `a > b` with a right operand that may be `NaN`. -/
def gtNumber (a : Int) (b : Option Int) : Bool :=
  match b with
  | some n => decide (a > n)
  | none => false

/-! ## The host runtime -/

/-- Built-ins of the JavaScript engine whose result is not fixed by the program text:
`Array.prototype.sort` (the comparator's result is passed through ToNumber, so a
boolean comparator is seen as `1`/`0`) and `String.prototype.toUpperCase`. -/
structure Runtime where
  sort : {α : Type} → (α → α → Int) → List α → List α
  toUpperCase : String → String

/-! ### `Array.prototype.sort` of V8 (version 7.0 and later)

The engine sorts with TimSort.  For an array shorter than 64 elements the minimal run
length is the array length, so the array is handled as one natural run followed by a
binary insertion sort of the remaining elements; only that path is modelled (longer
arrays additionally merge runs). -/

/-- Number of elements after `previous` that continue the run (`CountAndMakeRun`, the
loop). -/
def runTail {α : Type} (comparefn : α → α → Int) (isDescending : Bool) : α → List α → Nat
  | _, [] => 0
  | previous, current :: rest =>
    let order := comparefn current previous
    if isDescending then
      if order ≥ 0 then 0 else 1 + runTail comparefn isDescending current rest
    else
      if order < 0 then 0 else 1 + runTail comparefn isDescending current rest

/-- The step `CountAndMakeRun`: length of the run starting the array, and the array with that
run reversed when it is strictly descending. -/
def countAndMakeRun {α : Type} (comparefn : α → α → Int) (a : List α) : Nat × List α :=
  match a with
  | [] => (0, [])
  | [x] => (1, [x])
  | first :: second :: rest =>
    let isDescending := decide (comparefn second first < 0)
    let runLength := 2 + runTail comparefn isDescending second rest
    if isDescending then (runLength, (a.take runLength).reverse ++ a.drop runLength)
    else (runLength, a)

/-- The binary search of `BinaryInsertionSort`: the index at which `pivot` goes into
the sorted prefix `a[0, right)`. -/
def binarySearch {α : Type} (comparefn : α → α → Int) (a : List α) (pivot : α) :
    Nat → Nat → Nat → Nat
  | 0, left, _ => left
  | fuel + 1, left, right =>
    if left < right then
      let mid := left + (right - left) / 2
      match a.get? mid with
      | some x =>
        if comparefn pivot x < 0 then binarySearch comparefn a pivot fuel left mid
        else binarySearch comparefn a pivot fuel (mid + 1) right
      | none => left
    else left

/-- The step `BinaryInsertionSort`: insert the elements of `rest`, in order, into `sorted`. -/
def binaryInsertionSort {α : Type} (comparefn : α → α → Int) : List α → List α → List α
  | sorted, [] => sorted
  | sorted, pivot :: rest =>
    let left := binarySearch comparefn sorted pivot sorted.length 0 sorted.length
    binaryInsertionSort comparefn (sorted.take left ++ pivot :: sorted.drop left) rest

/-- The built-in `Array.prototype.sort(comparefn)` of V8, on arrays shorter than 64 elements. -/
def timSort {α : Type} (comparefn : α → α → Int) (a : List α) : List α :=
  let run := countAndMakeRun comparefn a
  binaryInsertionSort comparefn (run.2.take run.1) (run.2.drop run.1)

/-- The V8 runtime of Node.js 11 and later: TimSort, and `toUpperCase` on ASCII text. -/
def v8 : Runtime where
  sort := fun comparefn a => timSort comparefn a
  toUpperCase := fun s => String.mk (s.data.map Char.toUpper)

/-! ## Data model -/

/-- Sender ids of the Messenger platform are strings of decimal digits; an id is
modelled by its numeric value. -/
abbrev UserId := Nat

/-- The slot store `database.users`: one plain object per user id. -/
abbrev Users := List (UserId × Obj)

/-- Lookup `database.users[user_id]`. -/
def Users.get (users : Users) (user_id : UserId) : Option Obj :=
  users.lookup user_id

/-- Assignment `database.users[user_id] = record`. -/
def Users.put (users : Users) (user_id : UserId) (record : Obj) : Users :=
  assocSet users user_id record

/-- The statement `delete database.users[user_id]`. -/
def Users.delete (users : Users) (user_id : UserId) : Users :=
  users.filter (fun p => !(p.1 == user_id))

/-- An entry of `database.groups`. -/
structure Group where
  image_url : String
  title : String
  jobs : List String
  subjects : List String
  min_grade : Int
  group : String
  deriving DecidableEq, Repr

/-- The global `database`. -/
structure Database where
  users : Users
  groups : List Group

/-- The `default_action` of a carousel element. -/
structure DefaultAction where
  type : String
  url : String
  webview_height_ratio : String
  deriving DecidableEq, Repr

/-- An element of the generic template built by `sendGroupsList`. -/
structure Element where
  title : String
  default_action : DefaultAction
  image_url : String
  subtitle : String
  deriving DecidableEq, Repr

/-- A quick-reply button built by `sendQuickReply`. -/
structure QuickReply where
  content_type : String
  title : String
  payload : String
  deriving DecidableEq, Repr

/-- The `messageData` bodies handed to `callSendAPI`; constant fields of the bodies
(`metadata`, the attachment and template type tags) are implied by the constructor. -/
inductive MessageData where
  | text (recipient : UserId) (text : String)
  | image (recipient : UserId) (url : String)
  | generic (recipient : UserId) (elements : List Element)
  | quickReplies (recipient : UserId) (text : String) (quick_replies : List QuickReply)
  | senderAction (recipient : UserId) (sender_action : String)
  deriving DecidableEq, Repr

/-- What a turn does to the outside world, in program order. -/
inductive Effect where
  | callSendAPI (messageData : MessageData)
  | textRequest (messageText : String) (sessionId : UserId) (parameters : Option Obj)

/-- The catalog `database.groups` of the source, for a given `SERVER_URL`. -/
def catalog (SERVER_URL : String) : List Group :=
  [ { image_url := SERVER_URL ++ "/assets/English1.png",
      title := "English Grammar, We welcome all!",
      jobs := ["writer", "educator"], subjects := ["English"],
      min_grade := 1, group := "1970897529862706" },
    { image_url := SERVER_URL ++ "/assets/English2.png",
      title := "Speaking English, the global language",
      jobs := ["writer", "educator", "social work"], subjects := ["English"],
      min_grade := 6, group := "1970897529862706" },
    { image_url := SERVER_URL ++ "/assets/English3.png",
      title := "English Vocabulary",
      jobs := ["writer", "educator"], subjects := ["English"],
      min_grade := 5, group := "1970897529862706" },
    { image_url := SERVER_URL ++ "/assets/English4.jpg",
      title := "Business English: Guidance on formal emails and workplace discussions.",
      jobs := ["writer", "educator", "social work"], subjects := ["English"],
      min_grade := 6, group := "1970897529862706" },
    { image_url := SERVER_URL ++ "/assets/English5.png",
      title := "Learn how to write and speak English properly!",
      jobs := ["writer", "educator", "social work", "computer scientist", "engineer"],
      subjects := ["English"],
      min_grade := 2, group := "1970897529862706" },
    { image_url := SERVER_URL ++ "/assets/Math1.png",
      title := "Mental Sums: Learn how to develop effective counting methods",
      jobs := ["educator", "engineer", "computer scientist"], subjects := ["Math"],
      min_grade := 2, group := "1970897529862706" },
    { image_url := SERVER_URL ++ "/assets/Math2.png",
      title := "Logic is fun! Join us for classes on math and problem solving using puzzles.",
      jobs := ["educator", "engineer", "computer scientist"], subjects := ["Math"],
      min_grade := 3, group := "1970897529862706" },
    { image_url := SERVER_URL ++ "/assets/Math3.jpg",
      title := "Textbook math! We are here to tell you more about what math impacts the world!",
      jobs := ["educator", "engineer", "computer scientist", "social work"],
      subjects := ["Math"],
      min_grade := 4, group := "1970897529862706" },
    { image_url := SERVER_URL ++ "/assets/Math4.jpg",
      title := "Basic algebra, the math that build our world today.",
      jobs := ["educator", "engineer", "computer scientist"], subjects := ["Math"],
      min_grade := 3, group := "1970897529862706" },
    { image_url := SERVER_URL ++ "/assets/Math5.jpg",
      title := "Mathemagic, Learn the coolest ways you can use math to have fun",
      jobs := ["educator", "engineer", "computer scientist", "social work"],
      subjects := ["Math"],
      min_grade := 1, group := "1970897529862706" },
    { image_url := SERVER_URL ++ "/assets/Programming1.png",
      title := "Python: Coding the future",
      jobs := ["engineer", "computer scientist"], subjects := ["Programming"],
      min_grade := 7, group := "1970897529862706" },
    { image_url := SERVER_URL ++ "/assets/Programming2.png",
      title := "How you can build your own system and a presence in the World Wide Map",
      jobs := ["engineer", "computer scientist", "social work"],
      subjects := ["Programming"],
      min_grade := 8, group := "1970897529862706" },
    { image_url := SERVER_URL ++ "/assets/Programming3.png",
      title := "Connect the world with your own mobile application!",
      jobs := ["engineer", "computer scientist"], subjects := ["Programming"],
      min_grade := 6, group := "1970897529862706" },
    { image_url := SERVER_URL ++ "/assets/Programming4.png",
      title := "Scratch: The foundation you need to be a programmer",
      jobs := ["engineer", "computer scientist"], subjects := ["Programming"],
      min_grade := 3, group := "1970897529862706" },
    { image_url := SERVER_URL ++ "/assets/Programming5.png",
      title := "Ruby on Rails: The web application builder that is used worldwide",
      jobs := ["engineer", "computer scientist"], subjects := ["Programming"],
      min_grade := 5, group := "1970897529862706" } ]

/-! ## Send API helpers -/

/-- The body sent by `sendTextMessage`. -/
def sendTextMessage (recipientId : UserId) (messageText : String) : Effect :=
  .callSendAPI (.text recipientId messageText)

/-- The body sent by `sendImageMessage`. -/
def sendImageMessage (recipientId : UserId) (image_url : String) : Effect :=
  .callSendAPI (.image recipientId image_url)

/-- The body sent by `sendGenericMessage`. -/
def sendGenericMessage (recipientId : UserId) (elements : List Element) : Effect :=
  .callSendAPI (.generic recipientId elements)

/-- The body sent by `sendQuickReply`. -/
def sendQuickReply (recipientId : UserId) (title : String) (replies : List String) : Effect :=
  .callSendAPI (.quickReplies recipientId title
    (replies.map (fun x => { content_type := "text", title := x, payload := x })))

/-- The body sent by `sendTypingOn`. -/
def sendTypingOn (recipientId : UserId) : Effect :=
  .callSendAPI (.senderAction recipientId "typing_on")

/-- The body sent by `sendTypingOff`. -/
def sendTypingOff (recipientId : UserId) : Effect :=
  .callSendAPI (.senderAction recipientId "typing_off")

/-! ## The slot store -/

/-- The function `updateParams`: create the record if there is none, then, for every
key of `parameters` in enumeration order, assign `parameters[key]` to that key of the
record. -/
def updateParams (users : Users) (user_id : UserId) (parameters : Obj) : Users :=
  let record := (users.get user_id).getD []
  users.put user_id
    ((parameters.map Prod.fst).foldl (fun r key => r.set key (parameters.get key)) record)

/-! ## The recommendation path -/

/-- The callback given to `filter` in `sendGroupsList`. -/
def groupsFilter (user_props : Obj) (x : Group) : Bool :=
  if (user_props.get "job").truthy && indexOf x.jobs (user_props.get "job") == -1 then
    false
  else if (user_props.get "grade").truthy &&
      gtNumber x.min_grade (parseInt (user_props.get "grade")) then
    false
  else if (user_props.get "subject").truthy &&
      indexOf x.subjects (user_props.get "subject") == -1 then
    false
  else
    true

/-- The callback given to `sort` in `sendGroupsList`: the boolean
`a.min_grade < b.min_grade`, as the number that `sort` makes of it. -/
def groupsCompare (a b : Group) : Int :=
  if a.min_grade < b.min_grade then 1 else 0

/-- The expression `y.charAt(0).toUpperCase() + y.slice(1)`. -/
def capitalize (js : Runtime) (y : String) : String :=
  match y.data with
  | [] => js.toUpperCase "" ++ ""
  | c :: cs => js.toUpperCase (String.mk [c]) ++ String.mk cs

/-- The callback given to `map` in `sendGroupsList`. -/
def groupsElement (js : Runtime) (x : Group) : Element :=
  { title := x.title,
    default_action :=
      { type := "web_url",
        url := "https://www.facebook.com/groups/" ++ x.group,
        webview_height_ratio := "tall" },
    image_url := x.image_url,
    subtitle := "For: " ++ ", ".intercalate (x.jobs.map (capitalize js)) }

/-- The array `groups` computed by `sendGroupsList`: `filter`, `sort`, `map`,
`slice(0, 5)`. -/
def groupsList (js : Runtime) (groups : List Group) (user_props : Obj) : List Element :=
  (((js.sort groupsCompare (groups.filter (groupsFilter user_props))).map
    (groupsElement js)).take 5)

/-- The function `sendGroupsList`: the effects it performs and the database it leaves. -/
def sendGroupsList (js : Runtime) (database : Database) (user_id : UserId)
    (user_props : Obj) : List Effect × Database :=
  let groups := groupsList js database.groups user_props
  if groups.length > 0 then
    ([sendTextMessage user_id "I think you might like to join these groups: ",
      sendGenericMessage user_id groups],
     { database with users := database.users.delete user_id })
  else
    ([sendTextMessage user_id "I can't find any active groups that match your profile..."],
     database)

/-! ## The reply router -/

/-- An entry of `response.result.fulfillment.messages`: the numeric `type` code and the
fields the source reads (`speech` for type 0, `title` and `replies` for type 2,
`imageUrl` for type 3, `payload` for type 4). -/
structure Message where
  type : Int
  speech : String
  imageUrl : String
  title : String
  replies : List String
  payload : JsVal

/-- The pending work left by `processCustom`: the two nested `setTimeout` callbacks of
the `find_groups` case, with the variables they close over. -/
inductive Timer where
  | findGroups (user_id : UserId) (user : Option Obj)

/-- What a piece of the program did: its effects so far, the database it leaves, and
the exception that stopped it, if one was thrown. -/
structure Outcome where
  effects : List Effect
  database : Database
  thrown : Option JsError

/-- The object literal passed to `sendGroupsList` by the inner timer callback; `user`
is `none` when `database.users[user_id]` was `undefined`. -/
def findGroupsProps (user : Option Obj) : Except JsError Obj :=
  match user with
  | none => .error (.typeError "Cannot read property user-age of undefined")
  | some u =>
    match (u.get "user-age").getProp "amount" with
    | .error e => .error e
    | .ok age =>
      .ok [("age", age),
           ("subject", u.get "subject-availability"),
           ("grade", u.get "user-grade"),
           ("job", u.get "user-aspiration")]

/-- The timers of `processCustom` firing: typing on, then typing off and
`sendGroupsList`. -/
def fireTimer (js : Runtime) (database : Database) : Timer → Outcome
  | .findGroups user_id user =>
    match findGroupsProps user with
    | .error e =>
      { effects := [sendTypingOn user_id, sendTypingOff user_id],
        database := database, thrown := some e }
    | .ok user_props =>
      let r := sendGroupsList js database user_id user_props
      { effects := [sendTypingOn user_id, sendTypingOff user_id] ++ r.1,
        database := r.2, thrown := none }

/-- The function `processCustom`, up to its return: the timer it sets, if any. -/
def processCustom (database : Database) (user_id : UserId) (message : Message) :
    Except JsError (Option Timer) :=
  match message.payload.getProp "intent" with
  | .error e => .error e
  | .ok (.str intent) =>
    if intent = "find_groups" then
      .ok (some (.findGroups user_id (database.users.get user_id)))
    else .ok none
  | .ok _ => .ok none

/-- The result of `sendApiAiMessages`: the Send API calls made, in order, and then the
outcome of the call of `processCustom` (no timer when there is no custom message). -/
structure Dispatch where
  sent : List Effect
  custom : Except JsError (Option Timer)

/-- The function `sendApiAiMessages`. -/
def sendApiAiMessages (database : Database) (user_id : UserId) (messages : List Message) :
    Dispatch :=
  let imageMessages := messages.filter (fun x => x.type == 3)
  let textMessages := messages.filter (fun x => x.type == 0)
  let quickReplies := messages.filter (fun x => x.type == 2)
  let customMessages := messages.filter (fun x => x.type == 4)
  { sent :=
      imageMessages.map (fun message => sendImageMessage user_id message.imageUrl) ++
      (match textMessages with
        | message :: _ =>
          if message.speech.length > 0 then [sendTextMessage user_id message.speech] else []
        | [] => []) ++
      quickReplies.map (fun message => sendQuickReply user_id message.title message.replies),
    custom :=
      match customMessages with
      | message :: _ => processCustom database user_id message
      | [] => .ok none }

/-! ## Turns -/

/-- How the API.AI request ends: the `response` event with `result.parameters` and
`result.fulfillment.messages`, or the `error` event. -/
inductive ApiAiEvent where
  | response (parameters : Obj) (messages : List Message)
  | error

/-- The function `sendToApiAi`, with the end of the request, and the timers it leaves
fired afterwards. -/
def sendToApiAi (js : Runtime) (database : Database) (senderID : UserId)
    (messageText : String) (event : ApiAiEvent) : Outcome :=
  let start := [sendTypingOn senderID,
    Effect.textRequest messageText senderID (database.users.get senderID)]
  match event with
  | .error => { effects := start, database := database, thrown := none }
  | .response parameters messages =>
    let merged : Database :=
      { database with users := updateParams database.users senderID parameters }
    let d := sendApiAiMessages merged senderID messages
    match d.custom with
    | .error e => { effects := start ++ d.sent, database := merged, thrown := some e }
    | .ok none =>
      { effects := start ++ d.sent ++ [sendTypingOff senderID],
        database := merged, thrown := none }
    | .ok (some timer) =>
      let r := fireTimer js merged timer
      { effects := start ++ d.sent ++ [sendTypingOff senderID] ++ r.effects,
        database := r.database, thrown := r.thrown }

/-- How the profile request of `getUser` ends: status 200 with the parsed body; a
response with another status; or no response at all. -/
inductive ProfileReply where
  | ok (user : Obj)
  | badStatus
  | noResponse

/-- The function `getUser`: the value handed to `callback`, if it is called.  Without
a response object the error branch itself throws while it builds its log line. -/
def getUser (reply : ProfileReply) : Except JsError (Option Obj) :=
  match reply with
  | .ok user => .ok (some user)
  | .badStatus => .ok none
  | .noResponse => .error (.typeError "Cannot read property statusCode of undefined")

/-- The fields of a `message` event that `receivedMessage` reads. -/
structure MessageEvent where
  senderID : UserId
  is_echo : Bool
  quick_reply : Option String
  text : Option String
  attachments : Bool

/-- The function `receivedMessage`, with the ends of the profile request and of the
API.AI request it may make. -/
def receivedMessage (js : Runtime) (database : Database) (event : MessageEvent)
    (profile : ProfileReply) (apiAi : ApiAiEvent) : Outcome :=
  if event.is_echo then
    { effects := [], database := database, thrown := none }
  else
    match event.quick_reply with
    | some quickReplyPayload => sendToApiAi js database event.senderID quickReplyPayload apiAi
    | none =>
      match event.text.filter (fun t => t.length > 0) with
      | some messageText =>
        match database.users.get event.senderID with
        | none =>
          match getUser profile with
          | .error e => { effects := [], database := database, thrown := some e }
          | .ok none => { effects := [], database := database, thrown := none }
          | .ok (some user) =>
            let parameters : Obj := [("user-name", user.get "first_name")]
            let seeded : Database :=
              { database with users := updateParams database.users event.senderID parameters }
            sendToApiAi js seeded event.senderID messageText apiAi
        | some _ => sendToApiAi js database event.senderID messageText apiAi
      | none =>
        if event.attachments then
          { effects := [sendTextMessage event.senderID "Message with attachment received"],
            database := database, thrown := none }
        else { effects := [], database := database, thrown := none }

/-! ## The specification's reading of the recommendation input -/

/-- The recommendation input as the specification types it: an optional role, an
optional integer grade and an optional subject. -/
structure Slots where
  role : Option String
  grade : Option Int
  subject : Option String

/-- The object that `processCustom` hands to `sendGroupsList` for such slots: an absent
slot is `undefined`. -/
def Slots.toProps (s : Slots) : Obj :=
  [("age", JsVal.undefined),
   ("subject", match s.subject with | some v => JsVal.str v | none => JsVal.undefined),
   ("grade", match s.grade with | some g => JsVal.num g | none => JsVal.undefined),
   ("job", match s.role with | some v => JsVal.str v | none => JsVal.undefined)]

/-- The survival rule in the specification's words: (role absent or role among the
item's roles) and (grade absent or threshold at most the grade) and (subject absent or
subject among the item's subjects). -/
def Slots.admits (s : Slots) (x : Group) : Bool :=
  (match s.role with | none => true | some role => decide (role ∈ x.jobs)) &&
  (match s.grade with | none => true | some grade => decide (x.min_grade ≤ grade)) &&
  (match s.subject with | none => true | some subject => decide (subject ∈ x.subjects))

/-- A catalog item that only fixes its roles and threshold. -/
def sampleGroup (title : String) (jobs : List String) (min_grade : Int) : Group :=
  { image_url := "", title := title, jobs := jobs, subjects := ["Math"],
    min_grade := min_grade, group := "1" }

/-- The catalog of the specification's scenario: engineer items with thresholds
2, 3, 4, 7 and 8. -/
def scenarioCatalog : List Group :=
  [sampleGroup "g2" ["engineer"] 2, sampleGroup "g3" ["engineer"] 3,
   sampleGroup "g4" ["engineer"] 4, sampleGroup "g7" ["engineer"] 7,
   sampleGroup "g8" ["engineer"] 8]

/-- The slots of the specification's scenario: role engineer, grade 5. -/
def scenarioProps : Obj :=
  Slots.toProps { role := some "engineer", grade := some 5, subject := none }

/-- A run of `updateParams` calls for one user, oldest first, with nothing in between. -/
def mergeAll (users : Users) (user_id : UserId) (updates : List Obj) : Users :=
  updates.foldl (fun us parameters => updateParams us user_id parameters) users

/-! ## Reading a trace -/

/-- Whether an effect is the Send API call made by `sendImageMessage`. -/
def Effect.isImageSend : Effect → Bool
  | .callSendAPI (.image _ _) => true
  | _ => false

/-- Whether an effect is the Send API call made by `sendTextMessage`. -/
def Effect.isTextSend : Effect → Bool
  | .callSendAPI (.text _ _) => true
  | _ => false

/-- Whether an effect is the Send API call made by `sendQuickReply`. -/
def Effect.isQuickReplySend : Effect → Bool
  | .callSendAPI (.quickReplies _ _ _) => true
  | _ => false

/-- The texts of the text sends of a trace, in order. -/
def textSends (effects : List Effect) : List String :=
  effects.filterMap (fun e =>
    match e with
    | .callSendAPI (.text _ t) => some t
    | _ => none)

/-- The Send API calls of a trace, in order: the outbound actions. -/
def sendCalls (effects : List Effect) : List MessageData :=
  effects.filterMap (fun e =>
    match e with
    | .callSendAPI messageData => some messageData
    | _ => none)

/-- The API.AI requests of a trace, in order: utterance and session id. -/
def textRequests (effects : List Effect) : List (String × UserId) :=
  effects.filterMap (fun e =>
    match e with
    | .textRequest messageText sessionId _ => some (messageText, sessionId)
    | _ => none)

/-- The specification's choice among the speech replies: the text of the first one, in
arrival order, whose text is non-empty. -/
def firstNonEmptySpeech (messages : List Message) : Option String :=
  ((messages.filter (fun x => x.type == 0)).find? (fun x => x.speech.length > 0)).map
    (fun x => x.speech)

/-- A speech reply (type 0). -/
def speechMessage (speech : String) : Message :=
  { type := 0, speech := speech, imageUrl := "", title := "", replies := [],
    payload := JsVal.undefined }

/-- A quick-reply prompt (type 2). -/
def quickReplyMessage (title : String) (replies : List String) : Message :=
  { type := 2, speech := "", imageUrl := "", title := title, replies := replies,
    payload := JsVal.undefined }

/-- An image reply (type 3). -/
def imageMessage (imageUrl : String) : Message :=
  { type := 3, speech := "", imageUrl := imageUrl, title := "", replies := [],
    payload := JsVal.undefined }

/-- A custom payload (type 4) naming an intent. -/
def customMessage (intent : String) : Message :=
  { type := 4, speech := "", imageUrl := "", title := "", replies := [],
    payload := JsVal.obj [("intent", JsVal.str intent)] }

/-- A text message event. -/
def textEvent (senderID : UserId) (text : String) : MessageEvent :=
  { senderID := senderID, is_echo := false, quick_reply := none, text := some text,
    attachments := false }

/-- A store with one user who has only a name. -/
def annOnly : Database :=
  { users := [(1, [("user-name", JsVal.str "Ann")])], groups := catalog "https://host" }

/-- A mixed batch of replies: two speech replies, an image, a prompt and a custom
payload. -/
def mixedBatch : List Message :=
  [speechMessage "hello", imageMessage "u", customMessage "other",
   quickReplyMessage "t" ["a", "b"], speechMessage "again"]

/-- The same replies as `mixedBatch`, interleaved differently. -/
def mixedBatchShuffled : List Message :=
  [customMessage "other", quickReplyMessage "t" ["a", "b"], speechMessage "hello",
   speechMessage "again", imageMessage "u"]

/-- A database in which no user has a record yet. -/
def noUsers : Database :=
  { users := [], groups := catalog "https://host" }

/-- A store with two users, each with a name. -/
def twoUsers : Users :=
  [(1, [("user-name", JsVal.str "Ann")]), (2, [("user-name", JsVal.str "Bea")])]

/-- The recommendation input of an engineer of grade 5 who gave the age 12. -/
def propsAge12 : Obj :=
  [("age", JsVal.num 12), ("subject", JsVal.undefined), ("grade", JsVal.str "5"),
   ("job", JsVal.str "engineer")]

/-- The recommendation input of an engineer of grade 5 who gave the age 30. -/
def propsAge30 : Obj :=
  [("age", JsVal.num 30), ("subject", JsVal.undefined), ("grade", JsVal.str "5"),
   ("job", JsVal.str "engineer")]

/-- The subtitle in the specification's words: the item's jobs, each with its first
character upper-cased, joined with a comma and a blank. -/
def specSubtitle (js : Runtime) (x : Group) : String :=
  ", ".intercalate (x.jobs.map (capitalize js))

/-- The parameters of a response in which every slot of the recommendation is filled. -/
def filledParameters : Obj :=
  [("user-age", JsVal.obj [("amount", JsVal.num 12), ("unit", JsVal.str "year")]),
   ("subject-availability", JsVal.str "Math"),
   ("user-grade", JsVal.str "5"),
   ("user-aspiration", JsVal.str "engineer")]

/-! ## Lemmas on keyed collections -/

theorem lookup_cons_ite {κ β : Type} [BEq κ] [LawfulBEq κ] [DecidableEq κ] (a k' : κ) (b : β)
    (es : List (κ × β)) :
    ((a, b) :: es).lookup k' = if k' = a then some b else es.lookup k' := by
  rw [List.lookup_cons]
  by_cases h : k' = a
  · subst h; simp
  · have hb : (k' == a) = false := by simp [h]
    simp [hb, h]

theorem lookup_assocSet {κ β : Type} [BEq κ] [LawfulBEq κ] [DecidableEq κ] (m : List (κ × β))
    (k k' : κ) (v : β) :
    (assocSet m k v).lookup k' = if k' = k then some v else m.lookup k' := by
  induction m with
  | nil => simp [assocSet, lookup_cons_ite]
  | cons p rest ih =>
    obtain ⟨a, b⟩ := p
    by_cases hak : a = k
    · subst hak
      simp only [assocSet, beq_self_eq_true, if_true, lookup_cons_ite]
      by_cases h : k' = a <;> simp [h]
    · simp only [assocSet, beq_iff_eq, hak, if_false, lookup_cons_ite, ih]
      by_cases h2 : k' = a
      · subst h2; simp [hak]
      · simp [h2]

theorem any_key_assocSet {κ β : Type} [BEq κ] [LawfulBEq κ] [DecidableEq κ] (m : List (κ × β))
    (k k' : κ) (v : β) :
    (assocSet m k v).any (fun p => p.1 == k') =
      ((k == k') || m.any (fun p => p.1 == k')) := by
  induction m with
  | nil => simp [assocSet]
  | cons p rest ih =>
    obtain ⟨a, b⟩ := p
    by_cases hak : a = k
    · subst hak
      simp only [assocSet, beq_self_eq_true, if_true, List.any_cons]
      cases ha : (a == k') <;> simp
    · simp only [assocSet, beq_iff_eq, hak, if_false, List.any_cons, ih]
      cases hd : (k == k') <;> cases ha : (a == k') <;> simp

theorem Obj.get_set (o : Obj) (key key' : String) (value : JsVal) :
    (o.set key value).get key' = if key' = key then value else o.get key' := by
  unfold Obj.get Obj.set
  rw [lookup_assocSet]
  split <;> rfl

theorem Obj.has_set (o : Obj) (key key' : String) (value : JsVal) :
    (o.set key value).has key' = ((key == key') || o.has key') := by
  unfold Obj.has Obj.set
  exact any_key_assocSet o key key' value

theorem Users.get_put (users : Users) (user_id u : UserId) (record : Obj) :
    (users.put user_id record).get u = if u = user_id then some record else users.get u := by
  unfold Users.get Users.put
  exact lookup_assocSet users user_id u record

theorem Users.get_delete (users : Users) (user_id u : UserId) :
    (users.delete user_id).get u = if u = user_id then none else users.get u := by
  unfold Users.get Users.delete
  induction users with
  | nil => simp
  | cons p rest ih =>
    obtain ⟨a, b⟩ := p
    by_cases ha : a = user_id
    · subst ha
      simp only [List.filter_cons, beq_self_eq_true, Bool.not_true, Bool.false_eq_true,
        if_false, ih, lookup_cons_ite]
      by_cases h : u = a <;> simp [h]
    · have hb : (!(a == user_id)) = true := by simp [ha]
      simp only [List.filter_cons, hb, if_true, lookup_cons_ite, ih]
      by_cases h2 : u = a
      · subst h2; simp [ha]
      · simp [h2]

/-! ## Lemmas on the filter -/

theorem indexOf_eq_neg_one (xs : List String) (v : JsVal) :
    (indexOf xs v == -1) = true ↔ ¬ ∃ s, v = JsVal.str s ∧ s ∈ xs := by
  cases v with
  | str s =>
    cases h : xs.indexOf? s with
    | none =>
      have hn : ∀ x ∈ xs, ¬ (x == s) = true := List.indexOf?_eq_none_iff.mp h
      have hs : s ∉ xs := fun hm => hn s hm (by simp)
      have hv : indexOf xs (JsVal.str s) = -1 := by simp only [indexOf, h]
      simp [hv, hs]
    | some i =>
      have hs : s ∈ xs := by
        by_contra hm
        have hnone : xs.indexOf? s = none :=
          List.indexOf?_eq_none_iff.mpr (fun x hx hxs => hm (by
            have : x = s := by simpa using hxs
            exact this ▸ hx))
        rw [hnone] at h
        cases h
      have hv : indexOf xs (JsVal.str s) = (i : Int) := by simp only [indexOf, h]
      have hne : ((i : Int) == -1) = false := by
        apply beq_false_of_ne
        omega
      simp [hv, hs, hne]
  | undefined => simp [indexOf]
  | null => simp [indexOf]
  | bool b => simp [indexOf]
  | num n => simp [indexOf]
  | obj f => simp [indexOf]

theorem gtNumber_eq_false (a : Int) (b : Option Int) :
    gtNumber a b = false ↔ (b = none ∨ ∃ n, b = some n ∧ a ≤ n) := by
  cases b with
  | none => simp [gtNumber]
  | some n => simp [gtNumber]

theorem groupsFilter_eq_true (user_props : Obj) (x : Group) :
    groupsFilter user_props x = true ↔
      ((user_props.get "job").truthy = false ∨
        (indexOf x.jobs (user_props.get "job") == -1) = false) ∧
      ((user_props.get "grade").truthy = false ∨
        gtNumber x.min_grade (parseInt (user_props.get "grade")) = false) ∧
      ((user_props.get "subject").truthy = false ∨
        (indexOf x.subjects (user_props.get "subject") == -1) = false) := by
  unfold groupsFilter
  generalize (user_props.get "job").truthy = b1
  generalize (indexOf x.jobs (user_props.get "job") == -1) = b2
  generalize (user_props.get "grade").truthy = b3
  generalize gtNumber x.min_grade (parseInt (user_props.get "grade")) = b4
  generalize (user_props.get "subject").truthy = b5
  generalize (indexOf x.subjects (user_props.get "subject") == -1) = b6
  revert b1 b2 b3 b4 b5 b6
  decide

/-! ## The recommendation path: filter, bound, session completion -/

/-- C1 (as stated, refuted): with the grade slot present and equal to the number 0, an
item whose threshold is 1 survives the filter of `sendGroupsList`, although the
specification's rule (threshold at most the grade) rejects it. -/
theorem grade_zero_survives_counterexample :
    groupsFilter (Slots.toProps { role := none, grade := some 0, subject := none })
        (sampleGroup "g1" ["engineer"] 1) = true ∧
      Slots.admits { role := none, grade := some 0, subject := none }
        (sampleGroup "g1" ["engineer"] 1) = false := by
  decide

/-- C1 (amended): an item is in the filtered set of `sendGroupsList` exactly when it is
in the catalog and, for each criterion, the criterion is falsy (absent, `null`, `false`,
`0` or the empty string) or is met: the job is a string among the item's jobs, the
grade does not parse (`parseInt` gives `NaN`) or parses to at least the item's
threshold, the subject is a string among the item's subjects. -/
theorem groupsFilter_iff (groups : List Group) (user_props : Obj) (x : Group) :
    x ∈ groups.filter (groupsFilter user_props) ↔
      x ∈ groups ∧
      ((user_props.get "job").truthy = false ∨
        ∃ s, user_props.get "job" = JsVal.str s ∧ s ∈ x.jobs) ∧
      ((user_props.get "grade").truthy = false ∨
        parseInt (user_props.get "grade") = none ∨
        ∃ n, parseInt (user_props.get "grade") = some n ∧ x.min_grade ≤ n) ∧
      ((user_props.get "subject").truthy = false ∨
        ∃ s, user_props.get "subject" = JsVal.str s ∧ s ∈ x.subjects) := by
  rw [List.mem_filter, groupsFilter_eq_true]
  have hj := indexOf_eq_neg_one x.jobs (user_props.get "job")
  have hs := indexOf_eq_neg_one x.subjects (user_props.get "subject")
  have hg := gtNumber_eq_false x.min_grade (parseInt (user_props.get "grade"))
  have hj' : (indexOf x.jobs (user_props.get "job") == -1) = false ↔
      ∃ s, user_props.get "job" = JsVal.str s ∧ s ∈ x.jobs := by
    rw [← Bool.not_eq_true, hj, not_not]
  have hs' : (indexOf x.subjects (user_props.get "subject") == -1) = false ↔
      ∃ s, user_props.get "subject" = JsVal.str s ∧ s ∈ x.subjects := by
    rw [← Bool.not_eq_true, hs, not_not]
  rw [hj', hs', hg]

/-- C3: the recommendation list computed by `sendGroupsList` has at most 5 elements,
for every runtime, catalog and slot record; it is the list that the carousel carries. -/
theorem groupsList_length_le_five (js : Runtime) (database : Database) (user_id : UserId)
    (user_props : Obj) :
    (groupsList js database.groups user_props).length ≤ 5 ∧
      (sendGroupsList js database user_id user_props).1 =
        (if (groupsList js database.groups user_props).length > 0 then
          [sendTextMessage user_id "I think you might like to join these groups: ",
           sendGenericMessage user_id (groupsList js database.groups user_props)]
         else
          [sendTextMessage user_id
            "I can't find any active groups that match your profile..."]) := by
  refine ⟨?_, ?_⟩
  · unfold groupsList
    exact List.length_take_le 5 _
  · unfold sendGroupsList
    by_cases h : (groupsList js database.groups user_props).length > 0
    · rw [if_pos h, if_pos h]
    · rw [if_neg h, if_neg h]

/-- C4: after `sendGroupsList`, the lookup of the user's record is absent when the
recommendation list is non-empty, and is the lookup from before the call when the list
is empty (in which case the whole database is unchanged). -/
theorem sendGroupsList_session (js : Runtime) (database : Database) (user_id : UserId)
    (user_props : Obj) :
    (sendGroupsList js database user_id user_props).2.users.get user_id =
        (if (groupsList js database.groups user_props).length > 0 then none
         else database.users.get user_id) ∧
      ((groupsList js database.groups user_props).length = 0 →
        (sendGroupsList js database user_id user_props).2 = database) := by
  unfold sendGroupsList
  by_cases h : (groupsList js database.groups user_props).length > 0
  · simp only [h, if_true]
    refine ⟨?_, fun h0 => absurd h0 (by omega)⟩
    simp [Users.get_delete]
  · simp [h]

/-! ## The order of the recommendation list -/

theorem runTail_of_nonneg {α : Type} (comparefn : α → α → Int)
    (hc : ∀ a b, 0 ≤ comparefn a b) (previous : α) (rest : List α) :
    runTail comparefn false previous rest = rest.length := by
  induction rest generalizing previous with
  | nil => rfl
  | cons current rest ih =>
    have h : ¬ comparefn current previous < 0 := not_lt.mpr (hc current previous)
    simp only [runTail, Bool.false_eq_true, if_false, h, ih, List.length_cons]
    omega

theorem timSort_of_nonneg {α : Type} (comparefn : α → α → Int)
    (hc : ∀ a b, 0 ≤ comparefn a b) (a : List α) : timSort comparefn a = a := by
  match a with
  | [] => simp [timSort, countAndMakeRun, binaryInsertionSort]
  | [x] => simp [timSort, countAndMakeRun, binaryInsertionSort]
  | first :: second :: rest =>
    have h : ¬ comparefn second first < 0 := not_lt.mpr (hc second first)
    have hrun : countAndMakeRun comparefn (first :: second :: rest) =
        (2 + rest.length, first :: second :: rest) := by
      simp [countAndMakeRun, h, runTail_of_nonneg comparefn hc]
    have hlen : 2 + rest.length = (first :: second :: rest).length := by
      simp only [List.length_cons]; omega
    unfold timSort
    rw [hrun]
    simp only [hlen, List.take_length, List.drop_length, binaryInsertionSort]

theorem groupsCompare_nonneg (a b : Group) : 0 ≤ groupsCompare a b := by
  unfold groupsCompare
  split <;> decide

/-- Under V8's TimSort the comparator of `sendGroupsList`, which never returns a
negative number, leaves the filtered array in catalog order. -/
theorem groupsList_v8 (groups : List Group) (user_props : Obj) :
    groupsList v8 groups user_props =
      ((groups.filter (groupsFilter user_props)).map (groupsElement v8)).take 5 := by
  unfold groupsList
  show ((timSort groupsCompare (groups.filter (groupsFilter user_props))).map
    (groupsElement v8)).take 5 = _
  rw [timSort_of_nonneg groupsCompare groupsCompare_nonneg]

/-- C2 (code defect): in the specification's scenario (role engineer, grade 5, engineer
items with thresholds 2, 3, 4, 7, 8) the call of `sort` with the boolean comparator
leaves the three survivors in catalog order under V8's TimSort: thresholds 2, 3, 4 and
carousel g2, g3, g4, not the descending 4, 3, 2. -/
theorem groupsList_scenario_order :
    (v8.sort groupsCompare (scenarioCatalog.filter (groupsFilter scenarioProps))).map
        (fun x => x.min_grade) = [2, 3, 4] ∧
      (groupsList v8 scenarioCatalog scenarioProps).map (fun e => e.title) =
        ["g2", "g3", "g4"] := by
  decide

/-! ## Merging slots -/

theorem mem_keys_iff_has (o : Obj) (key : String) :
    key ∈ o.map Prod.fst ↔ o.has key = true := by
  unfold Obj.has
  simp only [List.mem_map, List.any_eq_true, beq_iff_eq]

theorem foldl_set_get (parameters : Obj) (keys : List String) (record : Obj) (key : String) :
    ((keys.foldl (fun r k => r.set k (parameters.get k)) record).get key =
        if key ∈ keys then parameters.get key else record.get key) ∧
      ((keys.foldl (fun r k => r.set k (parameters.get k)) record).has key =
        (decide (key ∈ keys) || record.has key)) := by
  induction keys generalizing record with
  | nil => simp
  | cons k ks ih =>
    simp only [List.foldl_cons]
    obtain ⟨ihg, ihh⟩ := ih (record.set k (parameters.get k))
    rw [ihg, ihh, Obj.get_set, Obj.has_set]
    by_cases h1 : key ∈ ks
    · simp [h1]
    · by_cases h2 : key = k
      · subst h2; simp [h1]
      · have h3 : ¬ (k = key) := fun e => h2 e.symm
        simp [h1, h2, h3]

theorem updateParams_get (users : Users) (user_id : UserId) (parameters : Obj) :
    ∃ record, (updateParams users user_id parameters).get user_id = some record ∧
      ∀ key,
        (record.get key =
          if parameters.has key = true then parameters.get key
          else ((users.get user_id).getD []).get key) ∧
        (record.has key = (parameters.has key || ((users.get user_id).getD []).has key)) := by
  refine ⟨_, by unfold updateParams; rw [Users.get_put, if_pos rfl], fun key => ?_⟩
  obtain ⟨hg, hh⟩ :=
    foldl_set_get parameters (parameters.map Prod.fst) ((users.get user_id).getD []) key
  refine ⟨?_, ?_⟩
  · rw [hg]
    by_cases h : parameters.has key = true
    · rw [if_pos h, if_pos ((mem_keys_iff_has parameters key).mpr h)]
    · rw [if_neg h, if_neg (fun hm => h ((mem_keys_iff_has parameters key).mp hm))]
  · rw [hh]
    by_cases h : parameters.has key = true
    · simp [h, (mem_keys_iff_has parameters key).mpr h]
    · have hm : key ∉ parameters.map Prod.fst :=
        fun hm => h ((mem_keys_iff_has parameters key).mp hm)
      simp only [Bool.not_eq_true] at h
      simp [h, hm]

/-- C5: after any run of `updateParams` calls for one user, the user has a record as
soon as one call was made; a key carried by some update is in the record with the value
of the last update that carried it; a key carried by no update is there exactly if it
was there before, with its old value. -/
theorem updateParams_sequence (users : Users) (user_id : UserId) (updates : List Obj)
    (key : String) :
    ((mergeAll users user_id updates).get user_id).isSome =
        ((users.get user_id).isSome || !updates.isEmpty) ∧
      (match updates.reverse.find? (fun parameters => parameters.has key) with
        | some parameters =>
          (((mergeAll users user_id updates).get user_id).getD []).has key = true ∧
          (((mergeAll users user_id updates).get user_id).getD []).get key =
            parameters.get key
        | none =>
          (((mergeAll users user_id updates).get user_id).getD []).has key =
            ((users.get user_id).getD []).has key ∧
          (((mergeAll users user_id updates).get user_id).getD []).get key =
            ((users.get user_id).getD []).get key) := by
  induction updates generalizing users with
  | nil => simp [mergeAll]
  | cons p ps ih =>
    obtain ⟨record, hrec, hkey⟩ := updateParams_get users user_id p
    obtain ⟨hget, hhas⟩ := hkey key
    have hstep : mergeAll users user_id (p :: ps) =
        mergeAll (updateParams users user_id p) user_id ps := rfl
    obtain ⟨ih1, ih2⟩ := ih (updateParams users user_id p)
    rw [hstep]
    refine ⟨?_, ?_⟩
    · rw [ih1, hrec]; simp
    · rw [List.reverse_cons, List.find?_append]
      cases hf : ps.reverse.find? (fun parameters => parameters.has key) with
      | some q =>
        rw [hf] at ih2
        simpa using ih2
      | none =>
        rw [hf] at ih2
        rw [hrec] at ih2
        simp only [Option.getD_some] at ih2
        by_cases hp : p.has key = true
        · simp only [List.find?_cons, hp, Option.none_or]
          rw [ih2.1, ih2.2, hget, hhas, if_pos hp, hp]
          simp
        · simp only [List.find?_cons, hp, List.find?_nil, Option.none_or]
          rw [ih2.1, ih2.2, hget, hhas, if_neg hp]
          simp only [Bool.not_eq_true] at hp
          simp [hp]

/-! ## The reply router -/

theorem textSends_append (a b : List Effect) :
    textSends (a ++ b) = textSends a ++ textSends b := by
  unfold textSends
  exact List.filterMap_append a b _

theorem textSends_images (user_id : UserId) (l : List Message) :
    textSends (l.map (fun message => sendImageMessage user_id message.imageUrl)) = [] := by
  induction l with
  | nil => rfl
  | cons a t ih =>
    simp [textSends, sendImageMessage]

theorem textSends_quickReplies (user_id : UserId) (l : List Message) :
    textSends (l.map (fun message =>
      sendQuickReply user_id message.title message.replies)) = [] := by
  induction l with
  | nil => rfl
  | cons a t ih =>
    simp [textSends, sendQuickReply]

theorem textSends_speech (user_id : UserId) (l : List Message) :
    textSends
        (match l.filter (fun x => x.type == 0) with
          | message :: _ =>
            if message.speech.length > 0 then [sendTextMessage user_id message.speech] else []
          | [] => []) =
      (match l.find? (fun x => x.type == 0) with
        | some message => if message.speech.length > 0 then [message.speech] else []
        | none => []) := by
  induction l with
  | nil => rfl
  | cons a t ih =>
    cases h : (a.type == 0) with
    | true =>
      simp only [List.filter_cons, List.find?_cons, h, if_true]
      by_cases hl : a.speech.length > 0
      · simp [hl, textSends, sendTextMessage]
      · simp [hl, textSends]
    | false =>
      simp only [List.filter_cons, List.find?_cons, h]
      exact ih

theorem all_isImageSend (user_id : UserId) (l : List Message) :
    (l.map (fun message => sendImageMessage user_id message.imageUrl)).all
      Effect.isImageSend = true := by
  induction l with
  | nil => rfl
  | cons a t ih =>
    rw [List.map_cons, List.all_cons, ih]
    rfl

theorem all_isQuickReplySend (user_id : UserId) (l : List Message) :
    (l.map (fun message => sendQuickReply user_id message.title message.replies)).all
      Effect.isQuickReplySend = true := by
  induction l with
  | nil => rfl
  | cons a t ih =>
    rw [List.map_cons, List.all_cons, ih]
    rfl

/-- C6: the Send API calls of `sendApiAiMessages` are image sends, then text sends,
then quick-reply sends; in a turn they are followed by the typing-off call and the
effects of the custom-intent timers; and two message lists with the same messages of
each of the types 3, 0, 2 and 4 give the same result, however they are interleaved. -/
theorem sendApiAiMessages_order (js : Runtime) (database : Database) (user_id : UserId)
    (messageText : String) (parameters : Obj) (messages messages' : List Message)
    (h3 : messages.filter (fun x => x.type == 3) = messages'.filter (fun x => x.type == 3))
    (h0 : messages.filter (fun x => x.type == 0) = messages'.filter (fun x => x.type == 0))
    (h2 : messages.filter (fun x => x.type == 2) = messages'.filter (fun x => x.type == 2))
    (h4 : messages.filter (fun x => x.type == 4) = messages'.filter (fun x => x.type == 4)) :
    (∃ images texts quicks,
        (sendApiAiMessages database user_id messages).sent = images ++ texts ++ quicks ∧
        images.all Effect.isImageSend = true ∧
        texts.all Effect.isTextSend = true ∧
        quicks.all Effect.isQuickReplySend = true) ∧
      (sendToApiAi js database user_id messageText (.response parameters messages)).effects =
        [sendTypingOn user_id,
          Effect.textRequest messageText user_id (database.users.get user_id)] ++
        (sendApiAiMessages
          { database with users := updateParams database.users user_id parameters }
          user_id messages).sent ++
        (match (sendApiAiMessages
            { database with users := updateParams database.users user_id parameters }
            user_id messages).custom with
          | .error _ => []
          | .ok none => [sendTypingOff user_id]
          | .ok (some timer) =>
            [sendTypingOff user_id] ++
              (fireTimer js
                { database with users := updateParams database.users user_id parameters }
                timer).effects) ∧
      sendApiAiMessages database user_id messages =
        sendApiAiMessages database user_id messages' := by
  refine ⟨⟨_, _, _, rfl, all_isImageSend user_id _, ?_, all_isQuickReplySend user_id _⟩,
    ?_, ?_⟩
  · split
    · split
      · rfl
      · rfl
    · rfl
  · unfold sendToApiAi
    simp only
    split <;> simp
  · unfold sendApiAiMessages
    simp only [h3, h0, h2, h4]

/-- C6 (witness): `mixedBatch` and `mixedBatchShuffled` hold the same replies of each
type and are routed to the same result. -/
theorem sendApiAiMessages_order_witness :
    (mixedBatch.filter (fun x => x.type == 3) =
        mixedBatchShuffled.filter (fun x => x.type == 3) ∧
      mixedBatch.filter (fun x => x.type == 0) =
        mixedBatchShuffled.filter (fun x => x.type == 0) ∧
      mixedBatch.filter (fun x => x.type == 2) =
        mixedBatchShuffled.filter (fun x => x.type == 2) ∧
      mixedBatch.filter (fun x => x.type == 4) =
        mixedBatchShuffled.filter (fun x => x.type == 4)) ∧
      sendApiAiMessages annOnly 1 mixedBatch =
        sendApiAiMessages annOnly 1 mixedBatchShuffled :=
  ⟨⟨rfl, rfl, rfl, rfl⟩,
    (sendApiAiMessages_order v8 annOnly 1 "hi" [] mixedBatch mixedBatchShuffled
      rfl rfl rfl rfl).2.2⟩

/-- C7 (as stated, refuted): with an empty first speech reply and a non-empty second
one, the specification picks the text "hi", and `sendApiAiMessages` sends no text. -/
theorem empty_first_speech_counterexample :
    firstNonEmptySpeech [speechMessage "", speechMessage "hi"] = some "hi" ∧
      textSends (sendApiAiMessages annOnly 1 [speechMessage "", speechMessage "hi"]).sent =
        [] := by
  decide

/-- C7 (amended): `sendApiAiMessages` sends at most one text; it sends one exactly when
the first speech reply (type 0) in arrival order has a non-empty text, and the text
sent is that of this first speech reply. -/
theorem sendApiAiMessages_text (database : Database) (user_id : UserId)
    (messages : List Message) :
    textSends (sendApiAiMessages database user_id messages).sent =
        (match messages.find? (fun x => x.type == 0) with
          | some message => if message.speech.length > 0 then [message.speech] else []
          | none => []) ∧
      (textSends (sendApiAiMessages database user_id messages).sent).length ≤ 1 := by
  have key : textSends (sendApiAiMessages database user_id messages).sent =
      (match messages.find? (fun x => x.type == 0) with
        | some message => if message.speech.length > 0 then [message.speech] else []
        | none => []) := by
    unfold sendApiAiMessages
    simp only [textSends_append, textSends_images, textSends_quickReplies, List.nil_append,
      List.append_nil]
    exact textSends_speech user_id messages
  refine ⟨key, ?_⟩
  rw [key]
  cases messages.find? (fun x => x.type == 0) with
  | none => simp
  | some message =>
    by_cases h : message.speech.length > 0
    · simp [h]
    · simp [h]

/-! ## Turns -/

/-- C8 (code defect): a user whose record holds only a name gets a `find_groups`
payload in a response without parameters.  The inner timer callback throws a
`TypeError` at `user['user-age']['amount']`: the four typing calls are the only Send
API calls of the turn, no recommendation is sent and the record stays. -/
theorem find_groups_without_age_throws :
    (sendToApiAi v8 annOnly 1 "find me a group"
        (.response [] [customMessage "find_groups"])).thrown =
        some (.typeError "Cannot read property amount of undefined") ∧
      sendCalls (sendToApiAi v8 annOnly 1 "find me a group"
        (.response [] [customMessage "find_groups"])).effects =
        [.senderAction 1 "typing_on", .senderAction 1 "typing_off",
         .senderAction 1 "typing_on", .senderAction 1 "typing_off"] ∧
      ((sendToApiAi v8 annOnly 1 "find me a group"
        (.response [] [customMessage "find_groups"])).database.users.get 1).isSome = true := by
  decide

/-- C9 (as stated, refuted): when the API.AI request ends in the `error` event, the
turn has still made one Send API call, the typing-on sender action. -/
theorem typing_on_before_error_counterexample :
    sendCalls (sendToApiAi v8 annOnly 1 "hello" .error).effects =
        [.senderAction 1 "typing_on"] ∧
      sendCalls (sendToApiAi v8 annOnly 1 "hello" .error).effects ≠ [] := by
  decide

/-- C9 (amended): when the API.AI request ends in the `error` event, the only Send API
call of the turn is the typing-on sender action made before the request; nothing is
thrown and the database after the turn is the database before it. -/
theorem sendToApiAi_error (js : Runtime) (database : Database) (senderID : UserId)
    (messageText : String) :
    sendCalls (sendToApiAi js database senderID messageText .error).effects =
        [.senderAction senderID "typing_on"] ∧
      textRequests (sendToApiAi js database senderID messageText .error).effects =
        [(messageText, senderID)] ∧
      (sendToApiAi js database senderID messageText .error).thrown = none ∧
      (sendToApiAi js database senderID messageText .error).database = database :=
  ⟨rfl, rfl, rfl, rfl⟩

theorem sendToApiAi_start (js : Runtime) (database : Database) (senderID : UserId)
    (messageText : String) (event : ApiAiEvent) :
    ∃ rest, (sendToApiAi js database senderID messageText event).effects =
      [sendTypingOn senderID,
        Effect.textRequest messageText senderID (database.users.get senderID)] ++ rest := by
  unfold sendToApiAi
  cases event with
  | error => exact ⟨[], rfl⟩
  | response parameters messages =>
    simp only
    split
    · exact ⟨_, by simp only [List.append_assoc]; rfl⟩
    · exact ⟨_, by simp only [List.append_assoc]; rfl⟩
    · exact ⟨_, by simp only [List.append_assoc]; rfl⟩

theorem updateParams_new_user (users : Users) (user_id : UserId) (key : String)
    (value : JsVal) (hnew : users.get user_id = none) :
    (updateParams users user_id [(key, value)]).get user_id = some [(key, value)] := by
  unfold updateParams
  rw [Users.get_put, if_pos rfl, hnew]
  simp [Obj.set, Obj.get, assocSet]

/-- C10 (as stated, refuted): a first text message whose profile request comes back
with a status other than 200 makes no API.AI request and no Send API call. -/
theorem profile_failed_drops_turn_counterexample :
    textRequests (receivedMessage v8 noUsers (textEvent 1 "hello") .badStatus
        (.response [] [speechMessage "hi"])).effects = [] ∧
      sendCalls (receivedMessage v8 noUsers (textEvent 1 "hello") .badStatus
        (.response [] [speechMessage "hi"])).effects = [] := by
  decide

/-- C10 (amended): for a non-empty text message from a user without a record, if the
profile request succeeds the turn goes on to the API.AI request with the message text,
and the record passed as context holds `user-name` set to the profile's `first_name`;
if the profile request fails the turn ends there: no effect at all (no API.AI request,
no Send API call) and the database is unchanged, so no slot is set. -/
theorem receivedMessage_new_user (js : Runtime) (database : Database) (event : MessageEvent)
    (messageText : String) (profile : ProfileReply) (apiAi : ApiAiEvent)
    (hecho : event.is_echo = false) (hquick : event.quick_reply = none)
    (htext : event.text = some messageText) (hlen : messageText.length > 0)
    (hnew : database.users.get event.senderID = none) :
    match profile with
    | .ok user =>
      ∃ rest, (receivedMessage js database event profile apiAi).effects =
        [sendTypingOn event.senderID,
          Effect.textRequest messageText event.senderID
            (some [("user-name", user.get "first_name")])] ++ rest
    | _ =>
      (receivedMessage js database event profile apiAi).effects = [] ∧
      (receivedMessage js database event profile apiAi).database = database := by
  have hfilter : event.text.filter (fun t => t.length > 0) = some messageText := by
    rw [htext]
    simp [Option.filter, hlen]
  cases profile with
  | ok user =>
    simp only
    unfold receivedMessage
    simp only [hecho, hquick, hfilter, hnew, getUser, Bool.false_eq_true, if_false]
    obtain ⟨rest, hrest⟩ := sendToApiAi_start js
      (Database.mk
        (updateParams database.users event.senderID [("user-name", user.get "first_name")])
        database.groups)
      event.senderID messageText apiAi
    refine ⟨rest, ?_⟩
    rw [hrest]
    simp only [updateParams_new_user database.users event.senderID "user-name"
      (user.get "first_name") hnew]
  | badStatus =>
    simp only
    unfold receivedMessage
    simp [hecho, hquick, hfilter, hnew, getUser]
  | noResponse =>
    simp only
    unfold receivedMessage
    simp [hecho, hquick, hfilter, hnew, getUser]

/-- C10 (witness): a first message "hello" from user 1, once with the profile of Ann
and once with a failed profile request. -/
theorem receivedMessage_new_user_witness :
    ((textEvent 1 "hello").is_echo = false ∧ (textEvent 1 "hello").quick_reply = none ∧
      (textEvent 1 "hello").text = some "hello" ∧ "hello".length > 0 ∧
      noUsers.users.get (textEvent 1 "hello").senderID = none) ∧
      (∃ rest, (receivedMessage v8 noUsers (textEvent 1 "hello")
          (.ok [("first_name", JsVal.str "Ann")]) .error).effects =
        [sendTypingOn 1,
          Effect.textRequest "hello" 1 (some [("user-name", JsVal.str "Ann")])] ++ rest) ∧
      ((receivedMessage v8 noUsers (textEvent 1 "hello") .badStatus .error).effects = [] ∧
        (receivedMessage v8 noUsers (textEvent 1 "hello") .badStatus .error).database =
          noUsers) :=
  ⟨⟨rfl, rfl, rfl, by decide, rfl⟩,
    receivedMessage_new_user v8 noUsers (textEvent 1 "hello") "hello"
      (.ok [("first_name", JsVal.str "Ann")]) .error rfl rfl rfl (by decide) rfl,
    receivedMessage_new_user v8 noUsers (textEvent 1 "hello") "hello"
      .badStatus .error rfl rfl rfl (by decide) rfl⟩

/-! ## Other users -/

/-- C13: a merge (`updateParams`) for user `u`, the `delete` of the record of `u`, and
a whole call of `sendGroupsList` for `u` leave the record of every other user `v` as it
was: the lookup of `v` gives the same record, or is absent on both sides. -/
theorem other_user_untouched (js : Runtime) (database : Database) (u v : UserId)
    (parameters user_props : Obj) (hne : v ≠ u) :
    (updateParams database.users u parameters).get v = database.users.get v ∧
      (database.users.delete u).get v = database.users.get v ∧
      (sendGroupsList js database u user_props).2.users.get v = database.users.get v := by
  have hput : (updateParams database.users u parameters).get v = database.users.get v := by
    unfold updateParams
    rw [Users.get_put, if_neg hne]
  have hdel : (database.users.delete u).get v = database.users.get v := by
    rw [Users.get_delete, if_neg hne]
  refine ⟨hput, hdel, ?_⟩
  unfold sendGroupsList
  by_cases h : (groupsList js database.groups user_props).length > 0
  · simp only [h, if_true]
    exact hdel
  · simp only [h, if_false]

/-- C13 (witness): merging into, and recommending to, user 1 leaves user 2 alone. -/
theorem other_user_untouched_witness :
    (2 : UserId) ≠ 1 ∧
      ((updateParams twoUsers 1 propsAge12).get 2 = twoUsers.get 2 ∧
        (twoUsers.delete 1).get 2 = twoUsers.get 2 ∧
        (sendGroupsList v8 { users := twoUsers, groups := scenarioCatalog } 1
          propsAge12).2.users.get 2 = twoUsers.get 2) :=
  ⟨by decide,
    other_user_untouched v8 { users := twoUsers, groups := scenarioCatalog } 1 2
      propsAge12 propsAge12 (by decide)⟩

/-! ## Images and prompts -/

theorem filter_isImageSend_images (user_id : UserId) (l : List Message) :
    (l.map (fun message => sendImageMessage user_id message.imageUrl)).filter
        Effect.isImageSend =
      l.map (fun message => sendImageMessage user_id message.imageUrl) := by
  induction l with
  | nil => rfl
  | cons a t ih =>
    rw [List.map_cons, List.filter_cons, ih]
    rfl

theorem filter_isQuickReplySend_images (user_id : UserId) (l : List Message) :
    (l.map (fun message => sendImageMessage user_id message.imageUrl)).filter
        Effect.isQuickReplySend = [] := by
  induction l with
  | nil => rfl
  | cons a t ih =>
    rw [List.map_cons, List.filter_cons, ih]
    rfl

theorem filter_isQuickReplySend_quickReplies (user_id : UserId) (l : List Message) :
    (l.map (fun message => sendQuickReply user_id message.title message.replies)).filter
        Effect.isQuickReplySend =
      l.map (fun message => sendQuickReply user_id message.title message.replies) := by
  induction l with
  | nil => rfl
  | cons a t ih =>
    rw [List.map_cons, List.filter_cons, ih]
    rfl

theorem filter_isImageSend_quickReplies (user_id : UserId) (l : List Message) :
    (l.map (fun message => sendQuickReply user_id message.title message.replies)).filter
        Effect.isImageSend = [] := by
  induction l with
  | nil => rfl
  | cons a t ih =>
    rw [List.map_cons, List.filter_cons, ih]
    rfl

theorem filter_speech_part (user_id : UserId) (l : List Message) :
    (match l with
      | message :: _ =>
        if message.speech.length > 0 then [sendTextMessage user_id message.speech] else []
      | [] => []).filter Effect.isImageSend = [] ∧
    (match l with
      | message :: _ =>
        if message.speech.length > 0 then [sendTextMessage user_id message.speech] else []
      | [] => []).filter Effect.isQuickReplySend = [] := by
  cases l with
  | nil => exact ⟨rfl, rfl⟩
  | cons a t =>
    by_cases h : a.speech.length > 0
    · simp only [h, if_true]
      exact ⟨rfl, rfl⟩
    · simp only [h, if_false]
      exact ⟨rfl, rfl⟩

/-- C15: among the Send API calls of `sendApiAiMessages`, the image sends are one per
message of type 3, in arrival order, each with that message's `imageUrl`; the
quick-reply sends are one per message of type 2, in arrival order, each with that
message's `title` and one text button per reply, in order, the reply being both the
button's title and its payload. -/
theorem sendApiAiMessages_images_and_prompts (database : Database) (user_id : UserId)
    (messages : List Message) :
    (sendApiAiMessages database user_id messages).sent.filter Effect.isImageSend =
        (messages.filter (fun x => x.type == 3)).map
          (fun message => Effect.callSendAPI (.image user_id message.imageUrl)) ∧
      (sendApiAiMessages database user_id messages).sent.filter Effect.isQuickReplySend =
        (messages.filter (fun x => x.type == 2)).map
          (fun message => Effect.callSendAPI (.quickReplies user_id message.title
            (message.replies.map
              (fun x => { content_type := "text", title := x, payload := x })))) := by
  obtain ⟨hs1, hs2⟩ := filter_speech_part user_id (messages.filter (fun x => x.type == 0))
  unfold sendApiAiMessages
  simp only [List.filter_append, filter_isImageSend_images, filter_isImageSend_quickReplies,
    filter_isQuickReplySend_images, filter_isQuickReplySend_quickReplies, hs1, hs2,
    List.append_nil, List.nil_append]
  exact ⟨rfl, rfl⟩

/-! ## The age property -/

/-- C16: two property records that agree on `job`, `grade` and `subject` make
`sendGroupsList` perform the same effects and leave the same database, whatever else
(such as `age`) they hold. -/
theorem sendGroupsList_ignores_age (js : Runtime) (database : Database) (user_id : UserId)
    (props props' : Obj) (hjob : props.get "job" = props'.get "job")
    (hgrade : props.get "grade" = props'.get "grade")
    (hsubject : props.get "subject" = props'.get "subject") :
    sendGroupsList js database user_id props = sendGroupsList js database user_id props' := by
  have hfilter : groupsFilter props = groupsFilter props' := by
    funext x
    unfold groupsFilter
    rw [hjob, hgrade, hsubject]
  unfold sendGroupsList groupsList
  rw [hfilter]

/-- C16 (witness): the ages 12 and 30, with the same job, grade and subject. -/
theorem sendGroupsList_ignores_age_witness :
    (propsAge12.get "job" = propsAge30.get "job" ∧
      propsAge12.get "grade" = propsAge30.get "grade" ∧
      propsAge12.get "subject" = propsAge30.get "subject" ∧
      propsAge12.get "age" = JsVal.num 12 ∧ propsAge30.get "age" = JsVal.num 30) ∧
      sendGroupsList v8 annOnly 1 propsAge12 = sendGroupsList v8 annOnly 1 propsAge30 :=
  ⟨⟨rfl, rfl, rfl, rfl, rfl⟩,
    sendGroupsList_ignores_age v8 annOnly 1 propsAge12 propsAge30 rfl rfl rfl⟩

/-! ## The carousel -/

/-- C14 (as stated, refuted): for an item with the jobs engineer and writer the
subtitle of the carousel element is "For: Engineer, Writer", not the bare joined list
"Engineer, Writer" of the specification. -/
theorem subtitle_has_prefix_counterexample :
    (groupsList v8 [sampleGroup "g" ["engineer", "writer"] 2] []).map
        (fun e => e.subtitle) = ["For: Engineer, Writer"] ∧
      specSubtitle v8 (sampleGroup "g" ["engineer", "writer"] 2) = "Engineer, Writer" := by
  decide

/-- C14 (amended): the recommendation list holds, in order, one element per item of the
first five sorted survivors; the element of item `x` has the title and image of `x`,
the URL "https://www.facebook.com/groups/" followed by `x.group`, and the subtitle
"For: " followed by the jobs of `x`, each with its first character upper-cased, joined
with ", "; and when the list is non-empty the effects are exactly the introductory
text and one carousel holding the list. -/
theorem sendGroupsList_carousel (js : Runtime) (database : Database) (user_id : UserId)
    (user_props : Obj) :
    groupsList js database.groups user_props =
        ((js.sort groupsCompare (database.groups.filter (groupsFilter user_props))).take 5).map
          (groupsElement js) ∧
      (∀ x : Group,
        (groupsElement js x).title = x.title ∧
        (groupsElement js x).image_url = x.image_url ∧
        (groupsElement js x).default_action.url =
          "https://www.facebook.com/groups/" ++ x.group ∧
        (groupsElement js x).subtitle =
          "For: " ++ ", ".intercalate (x.jobs.map (capitalize js))) ∧
      (∀ (c : Char) (cs : List Char),
        capitalize js (String.mk (c :: cs)) =
          js.toUpperCase (String.mk [c]) ++ String.mk cs) ∧
      (sendGroupsList js database user_id user_props).1 =
        (if (groupsList js database.groups user_props).length > 0 then
          [Effect.callSendAPI
              (.text user_id "I think you might like to join these groups: "),
            Effect.callSendAPI
              (.generic user_id (groupsList js database.groups user_props))]
         else
          [Effect.callSendAPI
            (.text user_id "I can't find any active groups that match your profile...")]) := by
  refine ⟨?_, fun x => ⟨rfl, rfl, rfl, rfl⟩, fun c cs => rfl, ?_⟩
  · unfold groupsList
    rw [List.map_take]
  · unfold sendGroupsList
    by_cases h : (groupsList js database.groups user_props).length > 0
    · rw [if_pos h, if_pos h]
      rfl
    · rw [if_neg h, if_neg h]
      rfl

/-! ## Custom intents -/

theorem custom_of_first (database : Database) (user_id : UserId) (messages : List Message) :
    (sendApiAiMessages database user_id messages).custom =
      (match messages.find? (fun x => x.type == 4) with
        | some message => processCustom database user_id message
        | none => .ok none) := by
  unfold sendApiAiMessages
  simp only
  induction messages with
  | nil => rfl
  | cons a t ih =>
    cases h : (a.type == 4) with
    | true => simp only [List.filter_cons, List.find?_cons, h, if_true]
    | false =>
      simp only [List.filter_cons, List.find?_cons, h]
      exact ih

theorem processCustom_find_groups (database : Database) (user_id : UserId)
    (message : Message)
    (hintent : message.payload.getProp "intent" = .ok (JsVal.str "find_groups")) :
    processCustom database user_id message =
      .ok (some (.findGroups user_id (database.users.get user_id))) := by
  unfold processCustom
  rw [hintent]
  simp

theorem processCustom_other_intent (database : Database) (user_id : UserId)
    (message : Message) (intent : JsVal)
    (hintent : message.payload.getProp "intent" = .ok intent)
    (hother : intent ≠ JsVal.str "find_groups") :
    processCustom database user_id message = .ok none := by
  unfold processCustom
  rw [hintent]
  cases intent with
  | str name =>
    have hname : name ≠ "find_groups" := fun e => hother (by rw [e])
    simp [hname]
  | undefined => rfl
  | null => rfl
  | bool b => rfl
  | num n => rfl
  | obj fields => rfl

theorem textSends_sendGroupsList (js : Runtime) (database : Database) (user_id : UserId)
    (user_props : Obj) :
    (textSends (sendGroupsList js database user_id user_props).1).length = 1 := by
  unfold sendGroupsList
  by_cases h : (groupsList js database.groups user_props).length > 0
  · simp only [h, if_true]
    rfl
  · simp only [h, if_false]
    rfl

/-- Every call of `sendGroupsList` sends one text; the timers of `processCustom` send
one text when the argument of `sendGroupsList` can be built, and none when building it
throws. -/
theorem textSends_fireTimer (js : Runtime) (database : Database) (user_id : UserId)
    (user : Option Obj) :
    (textSends (fireTimer js database (.findGroups user_id user)).effects).length =
      (match findGroupsProps user with
        | .ok _ => 1
        | .error _ => 0) := by
  cases h : findGroupsProps user with
  | error e =>
    simp only [fireTimer, h]
    rfl
  | ok user_props =>
    simp only [fireTimer, h, textSends_append, List.length_append]
    rw [textSends_sendGroupsList]
    rfl

/-- C11 (code defect): for a user whose record holds only a name, the first custom
payload names `find_groups`; `processCustom` sets its timers, and when they fire the
argument of `sendGroupsList` cannot be built, so the timers make the two typing calls
and `sendGroupsList` is not entered (no text is sent). -/
theorem find_groups_timer_stops_short :
    (sendApiAiMessages annOnly 1
        [customMessage "find_groups", customMessage "other"]).custom =
        .ok (some (.findGroups 1 (annOnly.users.get 1))) ∧
      findGroupsProps (annOnly.users.get 1) =
        .error (.typeError "Cannot read property amount of undefined") ∧
      (fireTimer v8 annOnly (.findGroups 1 (annOnly.users.get 1))).effects =
        [sendTypingOn 1, sendTypingOff 1] ∧
      textSends (fireTimer v8 annOnly (.findGroups 1 (annOnly.users.get 1))).effects = [] :=
  ⟨rfl, rfl, rfl, rfl⟩

/-- C12: in a turn whose response carries a `find_groups` payload as its first custom
message, the record that `processCustom` reads is the record after the merge: it holds
every parameter of the response with the response's value; the timers run on it after
the turn's own sends, and the subject, grade and job handed to `sendGroupsList` are
read from it. -/
theorem merge_precedes_dispatch (js : Runtime) (database : Database) (senderID : UserId)
    (messageText : String) (parameters : Obj) (messages : List Message) (message : Message)
    (hfirst : messages.find? (fun x => x.type == 4) = some message)
    (hintent : message.payload.getProp "intent" = .ok (JsVal.str "find_groups")) :
    ∃ record,
      (updateParams database.users senderID parameters).get senderID = some record ∧
      (∀ key, parameters.has key = true →
        record.has key = true ∧ record.get key = parameters.get key) ∧
      (sendApiAiMessages
          { database with users := updateParams database.users senderID parameters }
          senderID messages).custom = .ok (some (.findGroups senderID (some record))) ∧
      (sendToApiAi js database senderID messageText (.response parameters messages)).effects =
        [sendTypingOn senderID,
          Effect.textRequest messageText senderID (database.users.get senderID)] ++
        (sendApiAiMessages
          { database with users := updateParams database.users senderID parameters }
          senderID messages).sent ++
        [sendTypingOff senderID] ++
        (fireTimer js
          { database with users := updateParams database.users senderID parameters }
          (.findGroups senderID (some record))).effects ∧
      (∀ props, findGroupsProps (some record) = .ok props →
        props.get "subject" = record.get "subject-availability" ∧
        props.get "grade" = record.get "user-grade" ∧
        props.get "job" = record.get "user-aspiration") := by
  obtain ⟨record, hrec, hkey⟩ := updateParams_get database.users senderID parameters
  have hcustom : (sendApiAiMessages
      { database with users := updateParams database.users senderID parameters }
      senderID messages).custom = .ok (some (.findGroups senderID (some record))) := by
    rw [custom_of_first, hfirst]
    simp only
    rw [processCustom_find_groups _ _ _ hintent]
    simp only [hrec]
  refine ⟨record, hrec, ?_, hcustom, ?_, ?_⟩
  · intro key hk
    obtain ⟨hg, hh⟩ := hkey key
    rw [hg, hh, if_pos hk, hk]
    exact ⟨rfl, rfl⟩
  · unfold sendToApiAi
    simp only [hcustom]
  · intro props hprops
    unfold findGroupsProps at hprops
    simp only at hprops
    split at hprops
    · cases hprops
    · cases hprops
      exact ⟨rfl, rfl, rfl⟩

/-- C12 (witness): Ann answers the last question; the response fills every slot and
carries a `find_groups` payload after a speech reply. -/
theorem merge_precedes_dispatch_witness :
    ([speechMessage "ok", customMessage "find_groups"].find? (fun x => x.type == 4) =
        some (customMessage "find_groups") ∧
      (customMessage "find_groups").payload.getProp "intent" =
        .ok (JsVal.str "find_groups")) ∧
      ∃ record,
        (updateParams annOnly.users 1 filledParameters).get 1 = some record ∧
        (∀ key, filledParameters.has key = true →
          record.has key = true ∧ record.get key = filledParameters.get key) ∧
        (sendApiAiMessages
            { annOnly with users := updateParams annOnly.users 1 filledParameters }
            1 [speechMessage "ok", customMessage "find_groups"]).custom =
          .ok (some (.findGroups 1 (some record))) ∧
        (sendToApiAi v8 annOnly 1 "engineer" (.response filledParameters
            [speechMessage "ok", customMessage "find_groups"])).effects =
          [sendTypingOn 1, Effect.textRequest "engineer" 1 (annOnly.users.get 1)] ++
          (sendApiAiMessages
            { annOnly with users := updateParams annOnly.users 1 filledParameters }
            1 [speechMessage "ok", customMessage "find_groups"]).sent ++
          [sendTypingOff 1] ++
          (fireTimer v8
            { annOnly with users := updateParams annOnly.users 1 filledParameters }
            (.findGroups 1 (some record))).effects ∧
        (∀ props, findGroupsProps (some record) = .ok props →
          props.get "subject" = record.get "subject-availability" ∧
          props.get "grade" = record.get "user-grade" ∧
          props.get "job" = record.get "user-aspiration") :=
  ⟨⟨rfl, rfl⟩,
    merge_precedes_dispatch v8 annOnly 1 "engineer" filledParameters
      [speechMessage "ok", customMessage "find_groups"] (customMessage "find_groups")
      rfl rfl⟩

end Girls4Change
